import Mathlib

/-!
Shallow embedding of the basis-matrix cache `get_bs_cached` from
`abel/tools/basis.py` (PyAbel), together with theorems settling the
frozen claims about its specification.

Modelling conventions:
* numpy 2-D arrays are `Mat`: explicit row/column counts plus a total
  entry function; `D[:r, :c]` is `Mat.trim`, which keeps the entry
  function and clips the counts (numpy slicing never pads).
* Floating-point values are modelled as exact rationals.  A projection
  angle θ (radians) is stored as its ratio t = θ/π, so that the
  source's `θ*100/np.pi` is exactly `100*t`; `astype(int)` is
  truncation toward zero (`ratTrunc`).
* The cache directory is a list of (file name, matrix) pairs in
  directory-listing order; `glob.glob(method+'_basis*')` is a filter by
  string prefix.  File names are modelled without the directory prefix:
  `bf.split('_')[-2]` indexes from the end of the path, and the
  directory prefix can only affect the parsed token in cases where the
  token is unparseable either way (it then contains a path separator).
* `int(...)` applied to a glob token is `pyInt` (optional surrounding
  whitespace, optional sign, nonempty decimal digits); a failure is the
  `ValueError` the source would raise at that point.
* The transform-specific generation functions are external
  collaborators (opaque pure functions of (size, options)), so the
  embedding of `get_bs_cached` is parametrised by `gen`.
* The Python memory slot `cached_basis` with `cached_basis[0] is None`
  behaves like no slot at all, so the slot is `Option (Mat × String)`.
* The `Outcome` structure records, besides the returned value or error,
  the updated directory contents and whether generation, a disk read
  (`np.load`) or a disk write (`np.save`) happened during the call.
-/

namespace PyAbelBasis

/-- A numpy 2-D numeric array: row count, column count, and entries. -/
structure Mat where
  rows : ℕ
  cols : ℕ
  entry : ℕ → ℕ → ℚ

/-- `D[:r, :c]`: numpy slicing clips the shape and keeps the entries. -/
def Mat.trim (D : Mat) (r c : ℕ) : Mat :=
  ⟨min D.rows r, min D.cols c, D.entry⟩

/-- The `basis_options` dict: the four keys read by the name derivation
(`legendre_orders`, `proj_angles`, `radial_step`, `clip`).  A `proj_angles`
entry t stands for the angle t·π radians. -/
structure BasisOptions where
  legendre_orders : Option (List ℤ)
  proj_angles : Option (List ℚ)
  radial_step : Option ℤ
  clip : Option ℤ

/-- The empty options dict (the default `basis_options=dict()`). -/
def noOptions : BasisOptions := ⟨none, none, none, none⟩

/-- Python `''.join`. -/
def joinStr (l : List String) : String := l.foldl (· ++ ·) ""

/-- Truncation toward zero of the fraction p/q (numpy `astype(int)`),
written out on the numerator and denominator so it evaluates by kernel
reduction. -/
def intTrunc (p : ℤ) (q : ℕ) : ℤ :=
  match p with
  | .ofNat n => .ofNat (n / q)
  | .negSucc n => -(((n + 1) / q : ℕ) : ℤ)

/-- One element of `(np.array(proj_angles)*100/np.pi).astype(int)`: with
an angle stored as t = θ/π, the source's θ·100/π is exactly 100·t, and
`astype(int)` truncates it toward zero, i.e. trunc((100·t.num)/t.den). -/
def projAngleToken (t : ℚ) : ℤ := intTrunc (100 * t.num) t.den

/-- `''.join(map(str, (np.array(proj_angles)*100/np.pi).astype(int)))`. -/
def projAnglesValue (ts : List ℚ) : String :=
  joinStr (ts.map (fun t => toString (projAngleToken t)))

/-- `''.join(map(str, legendre_orders))`. -/
def legendreValue (l : List ℤ) : String := joinStr (l.map toString)

/-- Value appended for the `legendre_orders` key (default `'02'`). -/
def legendreSegment (o : BasisOptions) : String :=
  match o.legendre_orders with
  | some l => legendreValue l
  | none => "02"

/-- Value appended for the `proj_angles` key (default `'050'`). -/
def projSegment (o : BasisOptions) : String :=
  match o.proj_angles with
  | some ts => projAnglesValue ts
  | none => "050"

/-- Value appended for the `radial_step` key (default `1`). -/
def radialSegment (o : BasisOptions) : String :=
  match o.radial_step with
  | some r => toString r
  | none => "1"

/-- Value appended for the `clip` key (default `0`). -/
def clipSegment (o : BasisOptions) : String :=
  match o.clip with
  | some c => toString c
  | none => "0"

/-- The four `"_{}".format(value)` appends done for `method == "linbasex"`,
in the fixed key order of the source loop. -/
def linbasexSuffix (o : BasisOptions) : String :=
  "_" ++ legendreSegment o ++ "_" ++ projSegment o ++
    "_" ++ radialSegment o ++ "_" ++ clipSegment o

/-- `"{}_basis_{}_{}".format(method, cols, nbf)`. -/
def baseName (method : String) (cols nbf : ℕ) : String :=
  method ++ "_basis_" ++ toString cols ++ "_" ++ toString nbf

/-- The derived artifact name before the `".npy"` extension is appended. -/
def basisNameCore (method : String) (cols nbf : ℕ) (o : BasisOptions) : String :=
  if method = "linbasex" then baseName method cols nbf ++ linbasexSuffix o
  else baseName method cols nbf

/-- The full derived file name (`basis_name` in the source). -/
def basisName (method : String) (cols nbf : ℕ) (o : BasisOptions) : String :=
  basisNameCore method cols nbf o ++ ".npy"

/-- Value of a digit list read in base 10. -/
def digitsVal (cs : List Char) : ℕ :=
  cs.foldl (fun a c => 10 * a + (c.toNat - 48)) 0

/-- Nonempty all-digit character list, as required by Python `int`. -/
def pyIntCore (cs : List Char) : Option ℤ :=
  if !cs.isEmpty && cs.all Char.isDigit then some ((digitsVal cs : ℤ)) else none

/-- Python `int(s)`: optional surrounding whitespace, optional sign,
then nonempty decimal digits; anything else raises `ValueError` (`none`).
(Underscore digit grouping cannot occur here: the parsed tokens come from
`split('_')` and so contain no underscore.) -/
def pyInt (s : String) : Option ℤ :=
  let ws : List Char := [' ', '\t', '\n', '\r']
  let cs := ((s.toList.dropWhile (ws.contains ·)).reverse.dropWhile (ws.contains ·)).reverse
  match cs with
  | '-' :: rest => (pyIntCore rest).map (fun n => -n)
  | '+' :: rest => pyIntCore rest
  | rest => pyIntCore rest

/-- Python `split('_')` on the character list: split at every
underscore, keeping empty fields. -/
def splitU : List Char → List (List Char)
  | [] => [[]]
  | c :: rest =>
    match splitU rest with
    | h :: t => if c = '_' then [] :: h :: t else (c :: h) :: t
    | [] => [[]]

/-- Python `path.split('_')`. -/
def pySplitUnd (s : String) : List String := (splitU s.toList).map String.mk

/-- The `[-2]` index of `bf.split('_')` (`none` models the `IndexError`
on fewer than two fields, impossible for glob-matched names). -/
def secondToLast (l : List String) : Option String :=
  match l.reverse with
  | _ :: t :: _ => some t
  | _ => none

/-- `int(bf.split('_')[-2])`. -/
def parseSize (path : String) : Option ℤ :=
  (secondToLast (pySplitUnd path)).bind pyInt

/-- `pat` is a prefix of `s` (character by character). -/
def listStarts : List Char → List Char → Bool
  | [], _ => true
  | _ :: _, [] => false
  | p :: ps, c :: cs => p == c && listStarts ps cs

/-- The name matches the glob pattern `pat ++ "*"`. -/
def strStarts (s pat : String) : Bool := listStarts pat.toList s.toList

/-- `glob.glob(os.path.join(basis_dir, method+'_basis*'))`: the files of
the directory, in listing order, whose name matches the pattern. -/
def globFiles (method : String) (fs : List (String × Mat)) : List (String × Mat) :=
  fs.filter (fun f => strStarts f.1 (method ++ "_basis"))

/-- Result of the disk scan loop. -/
inductive ScanResult where
  | found (f : String × Mat)
  | parseFail (path : String)
  | miss

/-- The loop `for bf in basis_files: if int(bf.split('_')[-2]) >= cols: ...`:
stops at the first candidate whose parsed token is ≥ `cols`, raises
`ValueError` on the first unparseable token reached, else falls through. -/
def scanList (colsReq : ℕ) : List (String × Mat) → ScanResult
  | [] => .miss
  | f :: rest =>
    match parseSize f.1 with
    | none => .parseFail f.1
    | some k => if (colsReq : ℤ) ≤ k then .found f else scanList colsReq rest

/-- The whole disk lookup: glob, then first-match scan. -/
def scanDisk (method : String) (colsReq : ℕ) (fs : List (String × Mat)) : ScanResult :=
  scanList colsReq (globFiles method fs)

/-- `np.save(path, D)`: overwrite the file of that name, or append it. -/
def saveFile (fs : List (String × Mat)) (name : String) (D : Mat) : List (String × Mat) :=
  if fs.any (fun f => f.1 == name) then
    fs.map (fun f => if f.1 == name then (name, D) else f)
  else fs ++ [(name, D)]

/-- The keys of the `basis_generator` dict. -/
def validMethods : List String :=
  ["linbasex", "onion_peeling", "three_point", "two_point"]

/-- The memory-slot test of lines 54-56: artifact present, row count ≥
`cols`, and recorded method equal to the requested one. -/
def slotHit (cached : Option (Mat × String)) (method : String) (colsReq : ℕ) : Option Mat :=
  match cached with
  | none => none
  | some (b, m) => if colsReq ≤ b.rows ∧ m = method then some b else none

/-- Errors raised by `get_bs_cached` (both are `ValueError` in Python,
distinguished here by their raise site). -/
inductive BasisError where
  | configError (method : String)
  | parseError (path : String)

/-- Observable outcome of one `get_bs_cached` call: returned value or
error, the directory contents afterwards, and whether generation, a
disk read or a disk write occurred. -/
structure Outcome where
  result : Except BasisError Mat
  fs : Option (List (String × Mat))
  generated : Bool
  diskRead : Bool
  diskWrote : Bool

/-- Shallow embedding of `get_bs_cached`, parametrised by the opaque
family `gen` of generation functions (`basis_generator[method](cols,
**basis_options)` is `gen method cols basis_options`). -/
def get_bs_cached (gen : String → ℕ → BasisOptions → Mat) (method : String)
    (cols nbf : ℕ) (basis_dir : Option (List (String × Mat)))
    (cached_basis : Option (Mat × String)) (basis_options : BasisOptions) : Outcome :=
  match slotHit cached_basis method cols with
  | some b => ⟨.ok b, basis_dir, false, false, false⟩
  | none =>
    if method ∈ validMethods then
      match basis_dir with
      | some fs =>
        match scanDisk method cols fs with
        | .found f => ⟨.ok (f.2.trim cols nbf), some fs, false, true, false⟩
        | .parseFail p => ⟨.error (.parseError p), some fs, false, false, false⟩
        | .miss =>
          let D := gen method cols basis_options
          ⟨.ok D, some (saveFile fs (basisName method cols nbf basis_options) D),
            true, false, true⟩
      | none => ⟨.ok (gen method cols basis_options), none, true, false, false⟩
    else ⟨.error (.configError method), basis_dir, false, false, false⟩

/-- A generic generation family for concrete instantiations: a square
zero matrix of the requested size. -/
def gen0 : String → ℕ → BasisOptions → Mat := fun _ n _ => ⟨n, n, fun _ _ => 0⟩

/-- The angles 0°, 45°, 90°, 135° in radians, stored as their ratios
to π: 0, 1/4, 1/2, 3/4 (explicit constructors, so that the numerator
and denominator reduce in the kernel). -/
def anglesQuarter : List ℚ :=
  [⟨0, 1, by decide, by decide⟩, ⟨1, 4, by decide, by decide⟩,
   ⟨1, 2, by decide, by decide⟩, ⟨3, 4, by decide, by decide⟩]

/-- Options dict holding only `proj_angles` at 0°, 45°, 90°, 135°. -/
def anglesOpts : BasisOptions := ⟨none, some anglesQuarter, none, none⟩

/-- A concrete 5×5 artifact. -/
def M5 : Mat := ⟨5, 5, fun _ _ => 0⟩

/-- A concrete 2×2 artifact. -/
def M2 : Mat := ⟨2, 2, fun _ _ => 1⟩

/-- Characterization of the first-match scan loop: it loads file `f`
exactly when `f` occurs in the candidate list, every earlier candidate
parses to a value smaller than the requested size, and `f` itself
parses to a value at least the requested size. -/
lemma scanList_found_iff (colsReq : ℕ) (f : String × Mat) (l : List (String × Mat)) :
    scanList colsReq l = .found f ↔
      ∃ pre post, l = pre ++ f :: post ∧
        (∀ g ∈ pre, ∃ k, parseSize g.1 = some k ∧ k < (colsReq : ℤ)) ∧
        ∃ k, parseSize f.1 = some k ∧ (colsReq : ℤ) ≤ k := by
  induction l with
  | nil =>
    constructor
    · intro h
      exact absurd h (by simp [scanList])
    · rintro ⟨pre, post, hl, -, -⟩
      exact absurd hl (by cases pre <;> simp)
  | cons g rest ih =>
    constructor
    · intro h
      simp only [scanList] at h
      cases hk : parseSize g.1 with
      | none =>
        rw [hk] at h
        exact absurd h (by simp)
      | some k =>
        simp only [hk] at h
        by_cases hle : (colsReq : ℤ) ≤ k
        · rw [if_pos hle] at h
          injection h with hgf
          subst hgf
          exact ⟨[], rest, rfl, by simp, k, hk, hle⟩
        · rw [if_neg hle] at h
          obtain ⟨pre, post, hl, hpre, hex⟩ := ih.mp h
          refine ⟨g :: pre, post, by rw [hl, List.cons_append], ?_, hex⟩
          intro g2 hg2
          rcases List.mem_cons.mp hg2 with hg2 | hg2
          · exact ⟨k, hg2 ▸ hk, not_le.mp hle⟩
          · exact hpre g2 hg2
    · rintro ⟨pre, post, hl, hpre, k, hkf, hle⟩
      cases pre with
      | nil =>
        simp only [List.nil_append] at hl
        injection hl with h1 h2
        subst h1
        subst h2
        simp only [scanList, hkf, if_pos hle]
      | cons p pre2 =>
        simp only [List.cons_append] at hl
        injection hl with h1 h2
        obtain ⟨k2, hk2, hlt2⟩ := hpre p (List.mem_cons_self p pre2)
        subst h1
        simp only [scanList, hk2, if_neg (not_le.mpr hlt2)]
        exact ih.mpr ⟨pre2, post, h2, fun g2 hg2 => hpre g2 (List.mem_cons_of_mem _ hg2),
          k, hkf, hle⟩

/-- The scan loop raises the parse `ValueError` at the first unparseable
candidate, provided every earlier candidate parsed but was too small. -/
lemma scanList_parseFail_of (colsReq : ℕ) (pre : List (String × Mat)) (f : String × Mat)
    (post : List (String × Mat))
    (hpre : ∀ g ∈ pre, ∃ k, parseSize g.1 = some k ∧ k < (colsReq : ℤ))
    (hf : parseSize f.1 = none) :
    scanList colsReq (pre ++ f :: post) = .parseFail f.1 := by
  induction pre with
  | nil => simp [scanList, hf]
  | cons g pre2 ih =>
    obtain ⟨k, hk, hlt⟩ := hpre g (List.mem_cons_self g pre2)
    have h2 := ih (fun g2 hg2 => hpre g2 (List.mem_cons_of_mem _ hg2))
    simp only [List.cons_append, scanList, hk, if_neg (not_le.mpr hlt)]
    exact h2

/-- Unfolding: memory-slot hit (lines 54-59 of the source). -/
lemma gbc_slot (gen : String → ℕ → BasisOptions → Mat) (method : String) (cols nbf : ℕ)
    (basis_dir : Option (List (String × Mat))) (cached : Option (Mat × String))
    (o : BasisOptions) (b : Mat) (h : slotHit cached method cols = some b) :
    get_bs_cached gen method cols nbf basis_dir cached o =
      ⟨.ok b, basis_dir, false, false, false⟩ := by
  simp [get_bs_cached, h]

/-- Unfolding: unknown method (lines 68-70 of the source). -/
lemma gbc_invalid (gen : String → ℕ → BasisOptions → Mat) (method : String) (cols nbf : ℕ)
    (basis_dir : Option (List (String × Mat))) (cached : Option (Mat × String))
    (o : BasisOptions) (h1 : slotHit cached method cols = none)
    (h2 : method ∉ validMethods) :
    get_bs_cached gen method cols nbf basis_dir cached o =
      ⟨.error (.configError method), basis_dir, false, false, false⟩ := by
  simp [get_bs_cached, h1, h2]

/-- Unfolding: reusable disk candidate found (lines 104-110). -/
lemma gbc_found (gen : String → ℕ → BasisOptions → Mat) (method : String) (cols nbf : ℕ)
    (fs : List (String × Mat)) (cached : Option (Mat × String)) (o : BasisOptions)
    (f : String × Mat) (h1 : slotHit cached method cols = none)
    (h2 : method ∈ validMethods) (h3 : scanDisk method cols fs = .found f) :
    get_bs_cached gen method cols nbf (some fs) cached o =
      ⟨.ok (f.2.trim cols nbf), some fs, false, true, false⟩ := by
  simp [get_bs_cached, h1, h2, h3]

/-- Unfolding: unparseable candidate reached during the scan. -/
lemma gbc_parseFail (gen : String → ℕ → BasisOptions → Mat) (method : String) (cols nbf : ℕ)
    (fs : List (String × Mat)) (cached : Option (Mat × String)) (o : BasisOptions)
    (p : String) (h1 : slotHit cached method cols = none)
    (h2 : method ∈ validMethods) (h3 : scanDisk method cols fs = .parseFail p) :
    get_bs_cached gen method cols nbf (some fs) cached o =
      ⟨.error (.parseError p), some fs, false, false, false⟩ := by
  simp [get_bs_cached, h1, h2, h3]

/-- Unfolding: disk miss with a configured directory; generate and save
(lines 122-131). -/
lemma gbc_miss (gen : String → ℕ → BasisOptions → Mat) (method : String) (cols nbf : ℕ)
    (fs : List (String × Mat)) (cached : Option (Mat × String)) (o : BasisOptions)
    (h1 : slotHit cached method cols = none) (h2 : method ∈ validMethods)
    (h3 : scanDisk method cols fs = .miss) :
    get_bs_cached gen method cols nbf (some fs) cached o =
      ⟨.ok (gen method cols o),
        some (saveFile fs (basisName method cols nbf o) (gen method cols o)),
        true, false, true⟩ := by
  simp [get_bs_cached, h1, h2, h3]

/-- Unfolding: no cache directory configured; generate only. -/
lemma gbc_nodir (gen : String → ℕ → BasisOptions → Mat) (method : String) (cols nbf : ℕ)
    (cached : Option (Mat × String)) (o : BasisOptions)
    (h1 : slotHit cached method cols = none) (h2 : method ∈ validMethods) :
    get_bs_cached gen method cols nbf none cached o =
      ⟨.ok (gen method cols o), none, true, false, false⟩ := by
  simp [get_bs_cached, h1, h2]

/-- Trimming is the identity on a matrix that is at most the target shape. -/
lemma Mat.trim_self (D : Mat) (r c : ℕ) (h1 : D.rows ≤ r) (h2 : D.cols ≤ c) :
    D.trim r c = D := by
  cases D with
  | mk rows cols e => simp [Mat.trim, Nat.min_eq_left h1, Nat.min_eq_left h2]

/-- C1: during the disk scan, a candidate's embedded size is the parsed
second-to-last underscore-delimited token, a candidate is reusable
exactly when that value is at least the requested size, and the file
loaded is the first such candidate in directory-listing order (all
earlier glob matches parse to smaller values): first-match, not
best-match. -/
theorem claim_C1_disk_scan_first_match (method : String) (colsReq : ℕ)
    (fs : List (String × Mat)) (f : String × Mat) :
    scanDisk method colsReq fs = .found f ↔
      ∃ pre post, globFiles method fs = pre ++ f :: post ∧
        (∀ g ∈ pre, ∃ k, parseSize g.1 = some k ∧ k < (colsReq : ℤ)) ∧
        ∃ k, parseSize f.1 = some k ∧ (colsReq : ℤ) ≤ k :=
  scanList_found_iff colsReq f (globFiles method fs)

/-- C2 counterexample: with a memory slot recorded under the very same
unknown method and enough rows, the call returns the slot's artifact
and raises no `ConfigurationError`, because the memory-slot check runs
before method validation. -/
theorem claim_C2_counterexample :
    get_bs_cached gen0 "nonexistent_method" 3 3 none
        (some (M5, "nonexistent_method")) noOptions =
      ⟨.ok M5, none, false, false, false⟩ := rfl

/-- C2 (amended): when the memory-slot check does not hit, a method
outside the enumerated set fails with the configuration `ValueError`,
with no generation and no disk access, for every size, directory and
options. -/
theorem claim_C2_unknown_method_rejection (gen : String → ℕ → BasisOptions → Mat)
    (method : String) (cols nbf : ℕ) (basis_dir : Option (List (String × Mat)))
    (cached : Option (Mat × String)) (o : BasisOptions)
    (h1 : slotHit cached method cols = none) (h2 : method ∉ validMethods) :
    get_bs_cached gen method cols nbf basis_dir cached o =
      ⟨.error (.configError method), basis_dir, false, false, false⟩ :=
  gbc_invalid gen method cols nbf basis_dir cached o h1 h2

/-- C2 witness: the amended theorem applied at a concrete unknown
method with no memory slot. -/
theorem claim_C2_witness :
    slotHit none "nonexistent_method" 3 = none ∧
    "nonexistent_method" ∉ validMethods ∧
    get_bs_cached gen0 "nonexistent_method" 3 3 none none noOptions =
      ⟨.error (.configError "nonexistent_method"), none, false, false, false⟩ :=
  ⟨rfl, by decide,
    claim_C2_unknown_method_rejection gen0 "nonexistent_method" 3 3 none none
      noOptions rfl (by decide)⟩

/-- C3 counterexample: a linbasex artifact whose derived option suffix
differs from the request's (and whose row count is even smaller than
the request) is nevertheless reused, because the scan only compares the
second-to-last underscore token of the name (here the radial-step field
9) with the requested size; the returned matrix is the 2×2 artifact,
not the exact requested 5×5 shape. -/
theorem claim_C3_counterexample :
    get_bs_cached gen0 "linbasex" 5 5
        (some [("linbasex_basis_2_2_02_04590135_9_0.npy", M2)]) none noOptions =
      ⟨.ok (Mat.trim M2 5 5), some [("linbasex_basis_2_2_02_04590135_9_0.npy", M2)],
        false, true, false⟩ ∧
    (Mat.trim M2 5 5).rows = 2 ∧ M2.rows < 5 ∧
    linbasexSuffix noOptions ≠ "_02_04590135_9_0" :=
  ⟨rfl, rfl, by decide, by decide⟩

/-- C3 (amended): an on-disk artifact is reused only when its name
matches the method's glob pattern and the integer parsed from the
second-to-last underscore token of the name is at least the requested
size; no linbasex option-suffix comparison and no row-count comparison
is made; the reused artifact is returned trimmed to its first
`min(rows, size)` rows and first `min(cols, nbf)` columns (the exact
requested shape whenever the artifact is large enough). -/
theorem claim_C3_disk_reuse (gen : String → ℕ → BasisOptions → Mat) (method : String)
    (cols nbf : ℕ) (fs : List (String × Mat)) (cached : Option (Mat × String))
    (o : BasisOptions)
    (h : (get_bs_cached gen method cols nbf (some fs) cached o).diskRead = true) :
    ∃ f ∈ fs, strStarts f.1 (method ++ "_basis") = true ∧
      (∃ k, parseSize f.1 = some k ∧ (cols : ℤ) ≤ k) ∧
      (get_bs_cached gen method cols nbf (some fs) cached o).result =
        .ok (f.2.trim cols nbf) ∧
      (f.2.trim cols nbf).rows = min f.2.rows cols ∧
      (f.2.trim cols nbf).cols = min f.2.cols nbf := by
  cases hslot : slotHit cached method cols with
  | some b =>
    rw [gbc_slot gen method cols nbf (some fs) cached o b hslot] at h
    simp at h
  | none =>
    by_cases hm : method ∈ validMethods
    · cases hscan : scanDisk method cols fs with
      | found f =>
        obtain ⟨pre, post, hglob, hpre, k, hk, hle⟩ :=
          (scanList_found_iff cols f (globFiles method fs)).mp hscan
        have hmem : f ∈ globFiles method fs := by
          rw [hglob]
          exact List.mem_append_right pre (List.mem_cons_self f post)
        have hf := List.mem_filter.mp hmem
        refine ⟨f, hf.1, hf.2, ⟨k, hk, hle⟩, ?_, rfl, rfl⟩
        rw [gbc_found gen method cols nbf fs cached o f hslot hm hscan]
      | parseFail p =>
        rw [gbc_parseFail gen method cols nbf fs cached o p hslot hm hscan] at h
        simp at h
      | miss =>
        rw [gbc_miss gen method cols nbf fs cached o hslot hm hscan] at h
        simp at h
    · rw [gbc_invalid gen method cols nbf (some fs) cached o hslot hm] at h
      simp at h

/-- C3 witness: the amended theorem applied at a concrete directory
holding one reusable artifact. -/
theorem claim_C3_witness :
    (get_bs_cached gen0 "onion_peeling" 1 1
        (some [("onion_peeling_basis_2_2.npy", M2)]) none noOptions).diskRead = true ∧
    ∃ f ∈ [("onion_peeling_basis_2_2.npy", M2)],
      strStarts f.1 ("onion_peeling" ++ "_basis") = true ∧
      (∃ k, parseSize f.1 = some k ∧ ((1 : ℕ) : ℤ) ≤ k) ∧
      (get_bs_cached gen0 "onion_peeling" 1 1
          (some [("onion_peeling_basis_2_2.npy", M2)]) none noOptions).result =
        .ok (f.2.trim 1 1) ∧
      (f.2.trim 1 1).rows = min f.2.rows 1 ∧
      (f.2.trim 1 1).cols = min f.2.cols 1 :=
  ⟨rfl, claim_C3_disk_reuse gen0 "onion_peeling" 1 1
    [("onion_peeling_basis_2_2.npy", M2)] none noOptions rfl⟩

/-- C4 counterexample: for the angles 0°, 45°, 90°, 135° the derived
projection-angles segment is not `"04590135"` (the truncation of
θ·100/π gives 0, 25, 50, 75). -/
theorem claim_C4_counterexample : projSegment anglesOpts ≠ "04590135" := by decide

/-- C4 (amended): each supplied angle θ (radians) is converted to
θ·100/π, truncated to an integer, and the results are concatenated;
for the angle list corresponding to 0°, 45°, 90°, 135° the segment is
`"0255075"`, and when the option is absent the segment is `"050"`. -/
theorem claim_C4_proj_angle_segment :
    projSegment anglesOpts = "0255075" ∧ projSegment noOptions = "050" :=
  ⟨by decide, rfl⟩

/-- C5: with a directory holding exactly the 200×200 onion_peeling
artifact, the request for size 150 and 150 basis functions returns the
top-left 150×150 submatrix of the cached artifact (same entry function,
exact shape 150×150) without invoking generation. -/
theorem claim_C5_cached_reuse (gen : String → ℕ → BasisOptions → Mat)
    (e : ℕ → ℕ → ℚ) (o : BasisOptions) :
    get_bs_cached gen "onion_peeling" 150 150
        (some [("onion_peeling_basis_200_200.npy", ⟨200, 200, e⟩)]) none o =
      ⟨.ok (Mat.trim ⟨200, 200, e⟩ 150 150),
        some [("onion_peeling_basis_200_200.npy", ⟨200, 200, e⟩)],
        false, true, false⟩ ∧
    Mat.trim ⟨200, 200, e⟩ 150 150 = ⟨150, 150, e⟩ :=
  ⟨rfl, rfl⟩

/-- C6: starting from an empty configured directory, a first two_point
call with size 64 and 64 basis functions generates and persists; a
second identical call against the resulting directory returns exactly
the first call's matrix and does not invoke generation again (assuming
the generator produces, as documented, a 64×64 matrix). -/
theorem claim_C6_roundtrip (gen : String → ℕ → BasisOptions → Mat) (o : BasisOptions)
    (hr : (gen "two_point" 64 o).rows = 64) (hc : (gen "two_point" 64 o).cols = 64) :
    (get_bs_cached gen "two_point" 64 64 (some []) none o).result =
      .ok (gen "two_point" 64 o) ∧
    (get_bs_cached gen "two_point" 64 64 (some []) none o).generated = true ∧
    (get_bs_cached gen "two_point" 64 64
        (get_bs_cached gen "two_point" 64 64 (some []) none o).fs none o).result =
      .ok (gen "two_point" 64 o) ∧
    (get_bs_cached gen "two_point" 64 64
        (get_bs_cached gen "two_point" 64 64 (some []) none o).fs none o).generated =
      false := by
  refine ⟨rfl, rfl, ?_, rfl⟩
  have h1 : (get_bs_cached gen "two_point" 64 64
      (get_bs_cached gen "two_point" 64 64 (some []) none o).fs none o).result =
      .ok ((gen "two_point" 64 o).trim 64 64) := rfl
  rw [h1, Mat.trim_self (gen "two_point" 64 o) 64 64 (Nat.le_of_eq hr) (Nat.le_of_eq hc)]

/-- C6 witness: the round-trip theorem applied at a concrete generator
producing a 64×64 matrix. -/
theorem claim_C6_witness :
    (gen0 "two_point" 64 noOptions).rows = 64 ∧
    (gen0 "two_point" 64 noOptions).cols = 64 ∧
    ((get_bs_cached gen0 "two_point" 64 64 (some []) none noOptions).result =
        .ok (gen0 "two_point" 64 noOptions) ∧
      (get_bs_cached gen0 "two_point" 64 64 (some []) none noOptions).generated = true ∧
      (get_bs_cached gen0 "two_point" 64 64
          (get_bs_cached gen0 "two_point" 64 64 (some []) none noOptions).fs none
          noOptions).result = .ok (gen0 "two_point" 64 noOptions) ∧
      (get_bs_cached gen0 "two_point" 64 64
          (get_bs_cached gen0 "two_point" 64 64 (some []) none noOptions).fs none
          noOptions).generated = false) :=
  ⟨rfl, rfl, claim_C6_roundtrip gen0 noOptions rfl rfl⟩

/-- C7: a memory slot whose recorded method equals the requested method
and whose artifact has at least the requested number of rows
short-circuits the call: no disk read, no disk write, no generation,
and the artifact is returned unchanged — for every options dict, so in
particular no linbasex option-suffix check is made. -/
theorem claim_C7_memory_slot (gen : String → ℕ → BasisOptions → Mat) (method : String)
    (cols nbf : ℕ) (basis_dir : Option (List (String × Mat))) (b : Mat) (m : String)
    (o : BasisOptions) (h1 : cols ≤ b.rows) (h2 : m = method) :
    get_bs_cached gen method cols nbf basis_dir (some (b, m)) o =
      ⟨.ok b, basis_dir, false, false, false⟩ :=
  gbc_slot gen method cols nbf basis_dir (some (b, m)) o b (by simp [slotHit, h1, h2])

/-- C7 witness: the memory-slot theorem applied at a concrete slot for
linbasex, with row count 5 ≥ requested 3. -/
theorem claim_C7_witness :
    3 ≤ M5.rows ∧
    get_bs_cached gen0 "linbasex" 3 7 none (some (M5, "linbasex")) noOptions =
      ⟨.ok M5, none, false, false, false⟩ :=
  ⟨by decide,
    claim_C7_memory_slot gen0 "linbasex" 3 7 none M5 "linbasex" noOptions (by decide) rfl⟩

/-- C8: for every size and basis-function count, the name derived for
linbasex from an empty options dict is the base name followed by
`_02_050_1_0` (the four defaults in fixed order); the derivation is a
total function, never rejecting a request for missing options. -/
theorem claim_C8_linbasex_defaults (cols nbf : ℕ) :
    basisNameCore "linbasex" cols nbf noOptions =
      baseName "linbasex" cols nbf ++ "_02_050_1_0" := rfl

/-- C9: when the memory slot misses, the method is known, and the disk
lookup misses (directory unconfigured, or its scan falls through), the
returned matrix is exactly the generator's output — no truncation to the
requested column count — and with no configured directory nothing is
written anywhere. -/
theorem claim_C9_generation_path (gen : String → ℕ → BasisOptions → Mat) (method : String)
    (cols nbf : ℕ) (basis_dir : Option (List (String × Mat)))
    (cached : Option (Mat × String)) (o : BasisOptions)
    (h1 : slotHit cached method cols = none) (h2 : method ∈ validMethods)
    (h3 : ∀ fs, basis_dir = some fs → scanDisk method cols fs = .miss) :
    (get_bs_cached gen method cols nbf basis_dir cached o).result =
      .ok (gen method cols o) ∧
    (get_bs_cached gen method cols nbf basis_dir cached o).generated = true ∧
    (basis_dir = none →
      (get_bs_cached gen method cols nbf basis_dir cached o).fs = none ∧
      (get_bs_cached gen method cols nbf basis_dir cached o).diskWrote = false) := by
  cases basis_dir with
  | none =>
    rw [gbc_nodir gen method cols nbf cached o h1 h2]
    exact ⟨rfl, rfl, fun _ => ⟨rfl, rfl⟩⟩
  | some fs =>
    rw [gbc_miss gen method cols nbf fs cached o h1 h2 (h3 fs rfl)]
    exact ⟨rfl, rfl, fun hcon => absurd hcon (by simp)⟩

/-- C9 witness: the generation-path theorem applied with no configured
directory and no memory slot. -/
theorem claim_C9_witness :
    slotHit none "three_point" 5 = none ∧
    "three_point" ∈ validMethods ∧
    ((get_bs_cached gen0 "three_point" 5 5 none none noOptions).result =
        .ok (gen0 "three_point" 5 noOptions) ∧
      (get_bs_cached gen0 "three_point" 5 5 none none noOptions).generated = true ∧
      ((none : Option (List (String × Mat))) = none →
        (get_bs_cached gen0 "three_point" 5 5 none none noOptions).fs = none ∧
        (get_bs_cached gen0 "three_point" 5 5 none none noOptions).diskWrote = false)) :=
  ⟨rfl, by decide,
    claim_C9_generation_path gen0 "three_point" 5 5 none none noOptions rfl (by decide)
      (fun fs h => nomatch h)⟩

/-- C10: if a glob-matching file whose second-to-last underscore token
is not a decimal integer is reached before any reusable candidate, the
call raises the parse `ValueError` instead of skipping the file and
continuing to generation — the lookup is not total over arbitrary
directory contents. -/
theorem claim_C10_parse_error (gen : String → ℕ → BasisOptions → Mat) (method : String)
    (cols nbf : ℕ) (fs : List (String × Mat)) (cached : Option (Mat × String))
    (o : BasisOptions) (pre : List (String × Mat)) (f : String × Mat)
    (post : List (String × Mat))
    (h1 : slotHit cached method cols = none) (h2 : method ∈ validMethods)
    (hglob : globFiles method fs = pre ++ f :: post)
    (hpre : ∀ g ∈ pre, ∃ k, parseSize g.1 = some k ∧ k < (cols : ℤ))
    (hf : parseSize f.1 = none) :
    get_bs_cached gen method cols nbf (some fs) cached o =
      ⟨.error (.parseError f.1), some fs, false, false, false⟩ := by
  have h3 : scanDisk method cols fs = .parseFail f.1 := by
    unfold scanDisk
    rw [hglob]
    exact scanList_parseFail_of cols pre f post hpre hf
  exact gbc_parseFail gen method cols nbf fs cached o f.1 h1 h2 h3

/-- C10 witness: the parse-error theorem applied at a directory holding
one file with no parseable size token. -/
theorem claim_C10_witness :
    parseSize "onion_peeling_basis.npy" = none ∧
    get_bs_cached gen0 "onion_peeling" 3 3
        (some [("onion_peeling_basis.npy", M2)]) none noOptions =
      ⟨.error (.parseError "onion_peeling_basis.npy"),
        some [("onion_peeling_basis.npy", M2)], false, false, false⟩ :=
  ⟨rfl, claim_C10_parse_error gen0 "onion_peeling" 3 3
    [("onion_peeling_basis.npy", M2)] none noOptions []
    ("onion_peeling_basis.npy", M2) [] rfl (by decide) rfl
    (fun g hg => absurd hg (by simp)) rfl⟩

end PyAbelBasis
